import Mathlib

/-!
Verification of the Realm cost calculator's pricing engine.

Shallow embedding of the pricing engine in `src/main.ts` and of the traffic
recommendation module in `src/data/traffic-profiles.ts` (together with the
earlier employee-driven variant of that module that ships alongside it).
JavaScript numbers are modelled as exact rationals; functions that `throw`
are modelled as `Except String` carrying the thrown message.
-/

/-- Telemetry categories: the keys of `categoryBaselines` in
`traffic-profiles.ts`. -/
inductive TrafficCategory where
  | identity
  | cloudInfrastructure
  | networkSecurity
  | endpointEdr
  | saasBusiness
  deriving DecidableEq, Repr

/-- Catalog record for a source or destination (`Endpoint` in
`data/catalog.ts`): the fields consumed by `main.ts` and
`traffic-profiles.ts`. -/
structure Endpoint where
  id : String
  label : String
  description : String
  costPerMillionEvents : ℚ
  realmOptimization : ℚ
  trafficCategory : Option TrafficCategory
  deriving DecidableEq, Repr

/-- Constant `REALM_PLATFORM_FEE_PER_MILLION` of `main.ts`. -/
def REALM_PLATFORM_FEE_PER_MILLION : ℚ := 7.5

/-- Constant `DAYS_PER_MONTH` of `main.ts`. -/
def DAYS_PER_MONTH : ℚ := 30

/-- Constant `KB_PER_GIGABYTE` (`1_024 * 1_024`). -/
def KB_PER_GIGABYTE : ℚ := 1024 * 1024

/-- Constant `KB_PER_TERABYTE` (`KB_PER_GIGABYTE * 1_024`). -/
def KB_PER_TERABYTE : ℚ := KB_PER_GIGABYTE * 1024

/-- Constant `MAX_REALM_OPTIMIZATION` of `main.ts`. -/
def MAX_REALM_OPTIMIZATION : ℚ := 0.75

/-- Constant `LEGACY_PIPELINE_OVERHEAD_PER_MILLION` of `main.ts`. -/
def LEGACY_PIPELINE_OVERHEAD_PER_MILLION : ℚ := 12

/-- Type `CombinationOverride` of `main.ts`: both fields are optional. -/
structure CombinationOverride where
  averageOptimization : Option ℚ
  note : Option String
  deriving DecidableEq, Repr

/-- The `combinationOverrides` record of `main.ts`, as a partial map from
override keys; its single entry is keyed
`fortinet-fortigate::sumo-logic-siem`. -/
def combinationOverrides (key : String) : Option CombinationOverride :=
  if key = "fortinet-fortigate::sumo-logic-siem" then
    some { averageOptimization := some 0.2099
           note := some "Calibrated to Vensure case study (~$250K annual savings with Realm Focus)." }
  else
    none

/-- Type `CombinedSourceMetrics` of `main.ts`. -/
structure CombinedSourceMetrics where
  costPerMillionEvents : ℚ
  realmOptimization : ℚ
  deriving DecidableEq, Repr

/-- Function `summarizeSources` of `main.ts`: throws on an empty selection,
returns the single source's fields unchanged for a one-element selection,
and otherwise divides the field-wise `reduce` totals by the selection
length. -/
def summarizeSources : List Endpoint → Except String CombinedSourceMetrics
  | [] => .error "At least one source must be provided for calculation."
  | [singleSource] =>
      .ok { costPerMillionEvents := singleSource.costPerMillionEvents
            realmOptimization := singleSource.realmOptimization }
  | selectedSources@(_ :: _ :: _) =>
      let aggregates : CombinedSourceMetrics := selectedSources.foldl
        (fun (accumulator : CombinedSourceMetrics) source =>
          { costPerMillionEvents := accumulator.costPerMillionEvents + source.costPerMillionEvents
            realmOptimization := accumulator.realmOptimization + source.realmOptimization })
        { costPerMillionEvents := 0, realmOptimization := 0 }
      .ok { costPerMillionEvents := aggregates.costPerMillionEvents / (selectedSources.length : ℚ)
            realmOptimization := aggregates.realmOptimization / (selectedSources.length : ℚ) }

/-- Type `CalculatorState` of `main.ts`. -/
structure CalculatorState where
  sources : List Endpoint
  destination : Endpoint
  dailyTraffic : ℚ

/-- Shape of the object returned by `calculate` in `main.ts`. -/
structure CalculationResult where
  monthlyEvents : ℚ
  standardCost : ℚ
  realmCost : ℚ
  savings : ℚ
  savingsPercentage : ℚ
  providerRatePerMillion : ℚ
  legacyRatePerMillion : ℚ
  optimizedRatePerMillion : ℚ
  averageOptimization : ℚ
  calibrationNote : String
  deriving DecidableEq, Repr

/-- Function `calculate` of `main.ts`, line for line: the empty-selection
guard, the call to `summarizeSources`, the rate computation, the
single-source override key, the capped blended optimization, and the guarded
savings percentage. -/
def calculate (state : CalculatorState) : Except String CalculationResult :=
  match state.sources with
  | [] => .error "At least one source must be selected."
  | selectedSources@(_ :: _) =>
    let destination := state.destination
    let monthlyEvents := state.dailyTraffic * DAYS_PER_MONTH
    let millions := monthlyEvents / 1000000
    match summarizeSources selectedSources with
    | .error message => .error message
    | .ok combinedSource =>
      let providerRatePerMillion :=
        combinedSource.costPerMillionEvents + destination.costPerMillionEvents
      let legacyRatePerMillion := providerRatePerMillion + LEGACY_PIPELINE_OVERHEAD_PER_MILLION
      let standardCost := millions * legacyRatePerMillion
      let overrideKey : Option String :=
        match selectedSources with
        | [s] => some (s.id ++ "::" ++ destination.id)
        | _ => none
      let override := overrideKey.bind combinationOverrides
      let averageOptimization :=
        (override.bind (fun o => o.averageOptimization)).getD
          (min MAX_REALM_OPTIMIZATION
            ((combinedSource.realmOptimization + destination.realmOptimization) / 2))
      let optimizedRatePerMillion := providerRatePerMillion * (1 - averageOptimization)
      let realmCost := millions * (optimizedRatePerMillion + REALM_PLATFORM_FEE_PER_MILLION)
      let savings := standardCost - realmCost
      let savingsPercentage := if standardCost > 0 then savings / standardCost * 100 else 0
      .ok { monthlyEvents := monthlyEvents
            standardCost := standardCost
            realmCost := realmCost
            savings := savings
            savingsPercentage := savingsPercentage
            providerRatePerMillion := providerRatePerMillion
            legacyRatePerMillion := legacyRatePerMillion
            optimizedRatePerMillion := optimizedRatePerMillion
            averageOptimization := averageOptimization
            calibrationNote := (override.bind (fun o => o.note)).getD "" }

/-- Function `getEndpoint` of `main.ts`: `list.find` on the id, throwing
when nothing matches. -/
def getEndpoint (list : List Endpoint) (id : String) : Except String Endpoint :=
  match list.find? (fun item => item.id == id) with
  | some endpoint => .ok endpoint
  | none => .error ("Unknown endpoint id: " ++ id)

/-- Organization-size tiers: the `OrganizationSizeKey` union of
`traffic-profiles.ts` (`under-1000-gb`, `1000-5000-gb`, `over-5000-gb`). -/
inductive OrganizationSizeKey where
  | under1000Gb
  | from1000To5000Gb
  | over5000Gb
  deriving DecidableEq, Repr

/-- String spelling of an `OrganizationSizeKey`, as it appears at runtime. -/
def organizationSizeKeyId : OrganizationSizeKey → String
  | .under1000Gb => "under-1000-gb"
  | .from1000To5000Gb => "1000-5000-gb"
  | .over5000Gb => "over-5000-gb"

/-- Type `OrganizationSizeMeta` of `traffic-profiles.ts`. -/
structure OrganizationSizeMeta where
  id : OrganizationSizeKey
  label : String
  optionLabel : String
  shortLabel : String
  defaultDailyGigabytes : ℚ
  description : String
  deriving DecidableEq, Repr

/-- Entry `under-1000-gb` of `ORGANIZATION_SIZE_METAS`. -/
def metaUnder1000Gb : OrganizationSizeMeta :=
  { id := .under1000Gb
    label := "Less than 1,000 employees"
    optionLabel := "Less than 1,000 employees"
    shortLabel := "Less than 1,000 employees"
    defaultDailyGigabytes := 750
    description := "Ideal for smaller teams where log pipelines rarely exceed a terabyte per day." }

/-- Entry `1000-5000-gb` of `ORGANIZATION_SIZE_METAS`. -/
def metaFrom1000To5000Gb : OrganizationSizeMeta :=
  { id := .from1000To5000Gb
    label := "1,000 - 5,000 employees"
    optionLabel := "1,000 - 5,000 employees"
    shortLabel := "1,000 - 5,000 employees"
    defaultDailyGigabytes := 3000
    description := "Best fit for mid-size estates that typically ingest one to five terabytes daily." }

/-- Entry `over-5000-gb` of `ORGANIZATION_SIZE_METAS`. -/
def metaOver5000Gb : OrganizationSizeMeta :=
  { id := .over5000Gb
    label := "5,000+ employees"
    optionLabel := "5,000+ employees"
    shortLabel := "5,000+ employees"
    defaultDailyGigabytes := 6500
    description := "Use this for large enterprises where daily log volume usually tops five terabytes." }

/-- List `ORGANIZATION_SIZE_METAS` of `traffic-profiles.ts`. -/
def ORGANIZATION_SIZE_METAS : List OrganizationSizeMeta :=
  [metaUnder1000Gb, metaFrom1000To5000Gb, metaOver5000Gb]

/-- Function `getOrganizationSizeMeta`: the `ORGANIZATION_SIZE_INDEX` map
holds every key of the closed tier enumeration, so over typed keys the
lookup is total and the throw branch is unreachable. -/
def getOrganizationSizeMeta : OrganizationSizeKey → OrganizationSizeMeta
  | .under1000Gb => metaUnder1000Gb
  | .from1000To5000Gb => metaFrom1000To5000Gb
  | .over5000Gb => metaOver5000Gb

/-- Constant `fallbackCategory` of `traffic-profiles.ts`. -/
def fallbackCategory : TrafficCategory := .identity

/-- Cell type of the `BaselineMatrix` records in `traffic-profiles.ts`. -/
structure Baseline where
  averageEventSizeKb : ℚ
  deriving DecidableEq, Repr

/-- The `categoryBaselines` matrix of `traffic-profiles.ts`: every
(category, tier) cell is populated, transcribed literally. -/
def categoryBaselines : TrafficCategory → OrganizationSizeKey → Baseline
  | .identity, .under1000Gb => { averageEventSizeKb := 1.2 }
  | .identity, .from1000To5000Gb => { averageEventSizeKb := 1.3 }
  | .identity, .over5000Gb => { averageEventSizeKb := 1.3 }
  | .cloudInfrastructure, .under1000Gb => { averageEventSizeKb := 1.6 }
  | .cloudInfrastructure, .from1000To5000Gb => { averageEventSizeKb := 1.7 }
  | .cloudInfrastructure, .over5000Gb => { averageEventSizeKb := 1.8 }
  | .networkSecurity, .under1000Gb => { averageEventSizeKb := 0.12 }
  | .networkSecurity, .from1000To5000Gb => { averageEventSizeKb := 0.13 }
  | .networkSecurity, .over5000Gb => { averageEventSizeKb := 0.14 }
  | .endpointEdr, .under1000Gb => { averageEventSizeKb := 3.5 }
  | .endpointEdr, .from1000To5000Gb => { averageEventSizeKb := 3.8 }
  | .endpointEdr, .over5000Gb => { averageEventSizeKb := 4 }
  | .saasBusiness, .under1000Gb => { averageEventSizeKb := 1.5 }
  | .saasBusiness, .from1000To5000Gb => { averageEventSizeKb := 1.6 }
  | .saasBusiness, .over5000Gb => { averageEventSizeKb := 1.7 }

/-- Function `getBaseline` of `traffic-profiles.ts` over typed keys: the
category set is total over `TrafficCategory` and every tier cell is present,
so neither the identity fallback nor the throw fires on this domain. The
runtime string-keyed semantics is modelled separately below. -/
def getBaseline (category : TrafficCategory) (size : OrganizationSizeKey) : Baseline :=
  categoryBaselines category size

/-- String spelling of a `TrafficCategory`, as it appears at runtime. -/
def trafficCategoryId : TrafficCategory → String
  | .identity => "identity"
  | .cloudInfrastructure => "cloud-infrastructure"
  | .networkSecurity => "network-security"
  | .endpointEdr => "endpoint-edr"
  | .saasBusiness => "saas-business"

/-- Decodes a runtime category string into a key of `categoryBaselines`;
`none` means the string is not a key of the matrix. -/
def categoryOfKey (category : String) : Option TrafficCategory :=
  if category = "identity" then some .identity
  else if category = "cloud-infrastructure" then some .cloudInfrastructure
  else if category = "network-security" then some .networkSecurity
  else if category = "endpoint-edr" then some .endpointEdr
  else if category = "saas-business" then some .saasBusiness
  else none

/-- Decodes a runtime tier string into a key of a `BaselineMatrix`;
`none` means the string is not a key of that record. -/
def sizeOfKey (size : String) : Option OrganizationSizeKey :=
  if size = "under-1000-gb" then some .under1000Gb
  else if size = "1000-5000-gb" then some .from1000To5000Gb
  else if size = "over-5000-gb" then some .over5000Gb
  else none

/-- Runtime (type-erased) semantics of `getBaseline` in
`traffic-profiles.ts`: `categoryBaselines[category] ?? categoryBaselines[fallbackCategory]`
silently selects the identity matrix whenever `category` is not a key of the
matrix, and the `Missing baseline` throw fires only when the tier string is
absent from the selected category set. -/
def getBaselineRuntime (category size : String) : Except String Baseline :=
  let categorySet : OrganizationSizeKey → Baseline :=
    match categoryOfKey category with
    | some c => categoryBaselines c
    | none => categoryBaselines fallbackCategory
  match sizeOfKey size with
  | some s => .ok (categorySet s)
  | none => .error ("Missing baseline for category " ++ category ++ " and size " ++ size)

/-- Type `TrafficRecommendation` of `traffic-profiles.ts`. -/
structure TrafficRecommendation where
  organizationSize : OrganizationSizeMeta
  category : TrafficCategory
  dailyEvents : ℤ
  dailyGigabytes : ℚ
  averageEventSizeKb : ℚ
  deriving DecidableEq, Repr

/-- JavaScript `Math.round`: round half toward positive infinity. -/
def jsRound (x : ℚ) : ℤ := ⌊x + 1 / 2⌋

/-- Function `getTrafficRecommendation` of `traffic-profiles.ts`. -/
def getTrafficRecommendation (endpoint : Endpoint) (size : OrganizationSizeKey) :
    TrafficRecommendation :=
  let meta := getOrganizationSizeMeta size
  let category := endpoint.trafficCategory.getD fallbackCategory
  let baseline := getBaseline category size
  let dailyGigabytes := meta.defaultDailyGigabytes
  let averageEventSizeKb := baseline.averageEventSizeKb
  let dailyEvents := jsRound ((dailyGigabytes * KB_PER_GIGABYTE) / max averageEventSizeKb 0.0001)
  { organizationSize := meta
    category := category
    dailyEvents := dailyEvents
    dailyGigabytes := dailyGigabytes
    averageEventSizeKb := averageEventSizeKb }

/-- Organization-size tiers of the legacy employee-driven variant of the
traffic-profiles module (`hundreds`, `thousands`, `tens-of-thousands`). -/
inductive OrganizationSizeKeyLegacy where
  | hundreds
  | thousands
  | tensOfThousands
  deriving DecidableEq, Repr

/-- Type `OrganizationSizeMeta` of the legacy variant: sized by an
approximate employee count instead of a default daily gigabyte figure. -/
structure OrganizationSizeMetaLegacy where
  id : OrganizationSizeKeyLegacy
  label : String
  optionLabel : String
  shortLabel : String
  approxEmployees : ℚ
  description : String
  deriving DecidableEq, Repr

/-- Type `TrafficRecommendation` of the legacy variant. -/
structure TrafficRecommendationLegacy where
  organizationSize : OrganizationSizeMetaLegacy
  category : TrafficCategory
  dailyEvents : ℤ
  averageEventSizeKb : ℚ
  eventsPerEmployeePerDay : ℚ
  deriving DecidableEq, Repr

/-- Display units used by `describeTrafficRecommendation`. -/
inductive VolumeUnit where
  | kb
  | gb
  | tb
  deriving DecidableEq, Repr

/-- Abstraction of the formatted volume fragment of
`describeTrafficRecommendation`: the number shown, its unit suffix, and the
`maximumFractionDigits` handed to `toLocaleString` (locale digit grouping
itself is not modelled). -/
structure VolumeDisplay where
  value : ℚ
  unit : VolumeUnit
  maximumFractionDigits : ℕ
  deriving DecidableEq, Repr

/-- Volume fragment of `describeTrafficRecommendation` in
`src/data/traffic-profiles.ts`: TB with up to 2 fraction digits once the
daily volume reaches 1,024 GB, otherwise GB (0 fraction digits from 100 GB
up, else 1). -/
def describeVolumeDisplay (recommendation : TrafficRecommendation) : VolumeDisplay :=
  if recommendation.dailyGigabytes ≥ 1024 then
    { value := recommendation.dailyGigabytes / 1024, unit := .tb, maximumFractionDigits := 2 }
  else
    { value := recommendation.dailyGigabytes, unit := .gb
      maximumFractionDigits := if recommendation.dailyGigabytes ≥ 100 then 0 else 1 }

/-- Volume fragment of the legacy `describeTrafficRecommendation`: KB below
one gigabyte, TB from one terabyte up, GB in between, computed from
`dailyEvents * averageEventSizeKb`. -/
def describeVolumeDisplayLegacy (recommendation : TrafficRecommendationLegacy) : VolumeDisplay :=
  let dailyKb := (recommendation.dailyEvents : ℚ) * recommendation.averageEventSizeKb
  let dailyGb := dailyKb / 1048576
  let dailyTb := dailyGb / 1024
  if dailyGb < 1 then { value := dailyKb, unit := .kb, maximumFractionDigits := 0 }
  else if dailyTb ≥ 1 then { value := dailyTb, unit := .tb, maximumFractionDigits := 2 }
  else { value := dailyGb, unit := .gb, maximumFractionDigits := 2 }

/-- Unit demanded by the specification's display rule: the coarsest unit
that keeps the shown number at least one, stated on a daily volume given in
kilobytes. -/
def specCoarsestUnit (dailyKb : ℚ) : VolumeUnit :=
  if dailyKb < KB_PER_GIGABYTE then .kb
  else if dailyKb < KB_PER_TERABYTE then .gb
  else .tb

/-- Kilobytes represented by one of each display unit. -/
def unitFactor : VolumeUnit → ℚ
  | .kb => 1
  | .gb => KB_PER_GIGABYTE
  | .tb => KB_PER_TERABYTE

theorem foldl_metrics_eq (l : List Endpoint) (a : CombinedSourceMetrics) :
    l.foldl
      (fun (accumulator : CombinedSourceMetrics) source =>
        { costPerMillionEvents := accumulator.costPerMillionEvents + source.costPerMillionEvents
          realmOptimization := accumulator.realmOptimization + source.realmOptimization }) a
    = { costPerMillionEvents := a.costPerMillionEvents + (l.map Endpoint.costPerMillionEvents).sum
        realmOptimization := a.realmOptimization + (l.map Endpoint.realmOptimization).sum } := by
  induction l generalizing a with
  | nil => simp
  | cons x xs ih =>
      simp only [List.foldl_cons, ih, List.map_cons, List.sum_cons]
      simp [add_assoc]

theorem summarizeSources_pair (a b : Endpoint) (l : List Endpoint) :
    summarizeSources (a :: b :: l) =
      .ok { costPerMillionEvents :=
              ((a :: b :: l).map Endpoint.costPerMillionEvents).sum / ((a :: b :: l).length : ℚ)
            realmOptimization :=
              ((a :: b :: l).map Endpoint.realmOptimization).sum / ((a :: b :: l).length : ℚ) } := by
  simp only [summarizeSources, foldl_metrics_eq]
  norm_num

/-- C2: summarizeSources applied to a one-element selection returns exactly
the source's own costPerMillionEvents and realmOptimization, and applied to
two or more sources it returns the arithmetic mean (sum divided by the
selection length, not the bare sum) of each of the two fields. -/
theorem C2_summarize_single_and_mean :
    (∀ s : Endpoint, summarizeSources [s] =
      .ok { costPerMillionEvents := s.costPerMillionEvents
            realmOptimization := s.realmOptimization }) ∧
    (∀ (a b : Endpoint) (l : List Endpoint),
      summarizeSources (a :: b :: l) =
        .ok { costPerMillionEvents :=
                ((a :: b :: l).map Endpoint.costPerMillionEvents).sum / ((a :: b :: l).length : ℚ)
              realmOptimization :=
                ((a :: b :: l).map Endpoint.realmOptimization).sum / ((a :: b :: l).length : ℚ) }) :=
  ⟨fun _ => rfl, summarizeSources_pair⟩

/-- Specification example discharged through C2: sources priced 18 and 22
per million blend to exactly 20, and optimizations 0.4 and 0.6 to 0.5. -/
theorem C2_summarize_witness :
    summarizeSources
      [{ id := "source-a", label := "", description := "", costPerMillionEvents := 18,
         realmOptimization := 0.4, trafficCategory := none },
       { id := "source-b", label := "", description := "", costPerMillionEvents := 22,
         realmOptimization := 0.6, trafficCategory := none }] =
      .ok { costPerMillionEvents := 20, realmOptimization := 0.5 } := by
  rw [C2_summarize_single_and_mean.2]
  norm_num

/-- C4: an empty selection makes summarizeSources and calculate raise the
empty-selection error (modelled as the Except error carrying the thrown
message); neither returns a result. -/
theorem C4_empty_selection_errors :
    summarizeSources [] = .error "At least one source must be provided for calculation." ∧
    ∀ (d : Endpoint) (t : ℚ),
      calculate { sources := [], destination := d, dailyTraffic := t } =
        .error "At least one source must be selected." :=
  ⟨rfl, fun _ _ => rfl⟩

/-- C1: with exactly the source fortinet-fortigate selected and destination
sumo-logic-siem, calculate reports the registered override value 0.2099
verbatim as averageOptimization and the override's note as calibrationNote,
whatever the endpoints' own realmOptimization values and the traffic; with
two or more selected sources the override never applies and
averageOptimization is the capped blended mean (with an empty
calibrationNote). -/
theorem C1_override_precedence :
    (∀ (s d : Endpoint) (t : ℚ), s.id = "fortinet-fortigate" → d.id = "sumo-logic-siem" →
      ∃ r, calculate { sources := [s], destination := d, dailyTraffic := t } = .ok r ∧
        r.averageOptimization = 0.2099 ∧
        r.calibrationNote =
          "Calibrated to Vensure case study (~$250K annual savings with Realm Focus).") ∧
    (∀ (a b : Endpoint) (l : List Endpoint) (d : Endpoint) (t : ℚ),
      ∃ r, calculate { sources := a :: b :: l, destination := d, dailyTraffic := t } = .ok r ∧
        r.averageOptimization =
          min MAX_REALM_OPTIMIZATION
            ((((a :: b :: l).map Endpoint.realmOptimization).sum / ((a :: b :: l).length : ℚ) +
              d.realmOptimization) / 2) ∧
        r.calibrationNote = "") := by
  constructor
  · intro s d t hs hd
    refine ⟨_, rfl, ?_, ?_⟩
    · simp only [hs, hd]
      rfl
    · simp only [hs, hd]
      rfl
  · intro a b l d t
    refine ⟨_, rfl, ?_, rfl⟩
    simp [foldl_metrics_eq, add_assoc]

/-- Override instance discharged through C1: concrete fortinet-fortigate
and sumo-logic-siem endpoints whose own optimization values are 0.62 and
0.5 still yield exactly 0.2099 and the calibration note. -/
theorem C1_override_witness :
    ∃ r, calculate
        { sources := [{ id := "fortinet-fortigate", label := "", description := "",
                        costPerMillionEvents := 16, realmOptimization := 0.62,
                        trafficCategory := some .networkSecurity }],
          destination := { id := "sumo-logic-siem", label := "", description := "",
                           costPerMillionEvents := 20, realmOptimization := 0.5,
                           trafficCategory := none },
          dailyTraffic := 1000000 } = .ok r ∧
      r.averageOptimization = 0.2099 ∧
      r.calibrationNote =
        "Calibrated to Vensure case study (~$250K annual savings with Realm Focus)." :=
  C1_override_precedence.1 _ _ 1000000 rfl rfl

/-- C3: whenever no combination override is registered for the selected
single source and destination (and always when two or more sources are
selected), calculate sets averageOptimization to the minimum of
MAX_REALM_OPTIMIZATION and the blended mean of the combined source
optimization and the destination optimization, so it never exceeds 0.75. -/
theorem C3_optimization_cap :
    (∀ (s d : Endpoint) (t : ℚ),
      combinationOverrides (s.id ++ "::" ++ d.id) = none →
      ∃ r, calculate { sources := [s], destination := d, dailyTraffic := t } = .ok r ∧
        r.averageOptimization =
          min MAX_REALM_OPTIMIZATION ((s.realmOptimization + d.realmOptimization) / 2) ∧
        r.averageOptimization ≤ MAX_REALM_OPTIMIZATION) ∧
    (∀ (a b : Endpoint) (l : List Endpoint) (d : Endpoint) (t : ℚ),
      ∃ r, calculate { sources := a :: b :: l, destination := d, dailyTraffic := t } = .ok r ∧
        r.averageOptimization =
          min MAX_REALM_OPTIMIZATION
            ((((a :: b :: l).map Endpoint.realmOptimization).sum / ((a :: b :: l).length : ℚ) +
              d.realmOptimization) / 2) ∧
        r.averageOptimization ≤ MAX_REALM_OPTIMIZATION) := by
  constructor
  · intro s d t hnone
    refine ⟨_, rfl, ?_, ?_⟩
    · simp [hnone]
    · simp [hnone]
  · intro a b l d t
    refine ⟨_, rfl, ?_, ?_⟩
    · simp [foldl_metrics_eq, add_assoc]
    · simp [min_le_left]

/-- Cap instance discharged through C3: endpoints with optimization 0.9
each, no override registered, blend to 0.9 but the reported value is capped
at exactly 0.75. -/
theorem C3_cap_witness :
    ∃ r, calculate
        { sources := [{ id := "custom-source", label := "", description := "",
                        costPerMillionEvents := 10, realmOptimization := 0.9,
                        trafficCategory := none }],
          destination := { id := "custom-destination", label := "", description := "",
                           costPerMillionEvents := 12, realmOptimization := 0.9,
                           trafficCategory := none },
          dailyTraffic := 500 } = .ok r ∧
      r.averageOptimization = min MAX_REALM_OPTIMIZATION ((0.9 + 0.9) / 2) ∧
      r.averageOptimization ≤ MAX_REALM_OPTIMIZATION :=
  C3_optimization_cap.1
    { id := "custom-source", label := "", description := "",
      costPerMillionEvents := 10, realmOptimization := 0.9, trafficCategory := none }
    { id := "custom-destination", label := "", description := "",
      costPerMillionEvents := 12, realmOptimization := 0.9, trafficCategory := none }
    500 (by decide)

/-- Source stub with zero unit cost and zero optimization. -/
def zeroCostSource : Endpoint :=
  { id := "zero-cost-source", label := "", description := "",
    costPerMillionEvents := 0, realmOptimization := 0, trafficCategory := none }

/-- Destination stub with zero unit cost and zero optimization. -/
def zeroCostDestination : Endpoint :=
  { id := "zero-cost-destination", label := "", description := "",
    costPerMillionEvents := 0, realmOptimization := 0, trafficCategory := none }

/-- C5 counterexample: at dailyTraffic equal to minus one the engine does
not produce the claimed zero-cost result; monthlyEvents is minus thirty and
standardCost is strictly negative, so a negative dailyTraffic is not
treated as a zero-cost scenario. -/
theorem C5_negative_traffic_counterexample :
    ∃ r, calculate { sources := [zeroCostSource], destination := zeroCostDestination,
                     dailyTraffic := -1 } = .ok r ∧
      r.monthlyEvents = -30 ∧ r.standardCost = -9 / 25000 := by
  refine ⟨_, rfl, ?_, ?_⟩ <;>
    norm_num [zeroCostSource, zeroCostDestination, DAYS_PER_MONTH,
      LEGACY_PIPELINE_OVERHEAD_PER_MILLION]

/-- C5 as amended: at dailyTraffic exactly zero, calculate succeeds for any
non-empty selection and returns monthlyEvents, standardCost, realmCost,
savings and savingsPercentage all equal to zero; the savings-percentage
division is guarded so a zero standardCost yields zero rather than a
division by zero. -/
theorem C5_zero_traffic_amended :
    ∀ (s : Endpoint) (rest : List Endpoint) (d : Endpoint),
      ∃ r, calculate { sources := s :: rest, destination := d, dailyTraffic := 0 } = .ok r ∧
        r.monthlyEvents = 0 ∧ r.standardCost = 0 ∧ r.realmCost = 0 ∧ r.savings = 0 ∧
        r.savingsPercentage = 0 := by
  intro s rest d
  cases rest with
  | nil => refine ⟨_, rfl, ?_, ?_, ?_, ?_, ?_⟩ <;> simp
  | cons b l => refine ⟨_, rfl, ?_, ?_, ?_, ?_, ?_⟩ <;> simp

/-- C6: getEndpoint returns an endpoint of the list bearing the requested
id whenever one exists, and raises the unknown-endpoint error (never a
default or placeholder) when no element of the list has that id. -/
theorem C6_getEndpoint_lookup :
    (∀ (list : List Endpoint) (key : String) (e : Endpoint), e ∈ list → e.id = key →
      ∃ r, getEndpoint list key = .ok r ∧ r ∈ list ∧ r.id = key) ∧
    (∀ (list : List Endpoint) (key : String), (∀ e ∈ list, e.id ≠ key) →
      getEndpoint list key = .error ("Unknown endpoint id: " ++ key)) := by
  constructor
  · intro list key e hmem hid
    cases hfind : list.find? (fun item => item.id == key) with
    | none =>
        exfalso
        have hnone := List.find?_eq_none.mp hfind e hmem
        simp [hid] at hnone
    | some r =>
        refine ⟨r, ?_, List.mem_of_find?_eq_some hfind, ?_⟩
        · simp [getEndpoint, hfind]
        · have hr := List.find?_some hfind
          simpa using hr
  · intro list key h
    have hfind : list.find? (fun item => item.id == key) = none := by
      rw [List.find?_eq_none]
      intro x hx
      simpa using h x hx
    simp [getEndpoint, hfind]

/-- Lookup instances discharged through C6: a present id is found and the
absent id nonexistent-id raises the unknown-endpoint error. -/
theorem C6_lookup_witness :
    (∃ r, getEndpoint [zeroCostSource] "zero-cost-source" = .ok r ∧
      r ∈ [zeroCostSource] ∧ r.id = "zero-cost-source") ∧
    getEndpoint [zeroCostSource] "nonexistent-id" =
      .error ("Unknown endpoint id: " ++ "nonexistent-id") :=
  ⟨C6_getEndpoint_lookup.1 [zeroCostSource] "zero-cost-source" zeroCostSource
      (List.mem_singleton.mpr rfl) rfl,
   C6_getEndpoint_lookup.2 [zeroCostSource] "nonexistent-id" (by decide)⟩

/-- C7: for every endpoint and every organization-size tier, converting the
recommended dailyEvents back to gigabytes through averageEventSizeKb
reproduces the recommendation's dailyGigabytes within 0.01, despite
dailyEvents being rounded to an integer. -/
theorem C7_recommendation_roundtrip (endpoint : Endpoint) (size : OrganizationSizeKey) :
    |((getTrafficRecommendation endpoint size).dailyEvents : ℚ) *
        (getTrafficRecommendation endpoint size).averageEventSizeKb / KB_PER_GIGABYTE -
      (getTrafficRecommendation endpoint size).dailyGigabytes| ≤ 1 / 100 := by
  have h1 : (getTrafficRecommendation endpoint size).dailyGigabytes =
      (getOrganizationSizeMeta size).defaultDailyGigabytes := rfl
  have h2 : (getTrafficRecommendation endpoint size).averageEventSizeKb =
      (getBaseline (endpoint.trafficCategory.getD fallbackCategory) size).averageEventSizeKb := rfl
  have h3 : (getTrafficRecommendation endpoint size).dailyEvents =
      jsRound (((getOrganizationSizeMeta size).defaultDailyGigabytes * KB_PER_GIGABYTE) /
        max ((getBaseline (endpoint.trafficCategory.getD fallbackCategory) size).averageEventSizeKb)
          0.0001) := rfl
  rw [h1, h2, h3]
  generalize endpoint.trafficCategory.getD fallbackCategory = c
  cases c <;> cases size <;>
    norm_num [jsRound, getBaseline, categoryBaselines, getOrganizationSizeMeta,
      metaUnder1000Gb, metaFrom1000To5000Gb, metaOver5000Gb, KB_PER_GIGABYTE,
      max_def, abs_le]

/-- C8 counterexample: the string bogus-category names no cell of the
baseline matrix, yet the runtime getBaseline answers with the identity
category's baseline instead of raising the missing-baseline error — the
matrix lookup falls back across categories silently. -/
theorem C8_silent_fallback_counterexample :
    categoryOfKey "bogus-category" = none ∧
    getBaselineRuntime "bogus-category" "under-1000-gb" =
      .ok (categoryBaselines TrafficCategory.identity OrganizationSizeKey.under1000Gb) :=
  ⟨rfl, rfl⟩

/-- C8 as amended: getTrafficRecommendation defaults to the identity
category (and its baselines) when trafficCategory is absent; for a category
value that is not in the baseline matrix, getBaseline silently substitutes
the identity category's baselines rather than raising; the missing-baseline
error is raised exactly when the tier key is absent from the selected
category set. -/
theorem C8_baseline_fallback_amended :
    (∀ (i lb ds : String) (c o : ℚ) (size : OrganizationSizeKey),
      (getTrafficRecommendation
          { id := i, label := lb, description := ds, costPerMillionEvents := c,
            realmOptimization := o, trafficCategory := none } size).category =
        TrafficCategory.identity ∧
      (getTrafficRecommendation
          { id := i, label := lb, description := ds, costPerMillionEvents := c,
            realmOptimization := o, trafficCategory := none } size).averageEventSizeKb =
        (categoryBaselines TrafficCategory.identity size).averageEventSizeKb) ∧
    (∀ (category : String) (size : OrganizationSizeKey), categoryOfKey category = none →
      getBaselineRuntime category (organizationSizeKeyId size) =
        .ok (categoryBaselines TrafficCategory.identity size)) ∧
    (∀ (category tier : String), sizeOfKey tier = none →
      getBaselineRuntime category tier =
        .error ("Missing baseline for category " ++ category ++ " and size " ++ tier)) := by
  refine ⟨fun i lb ds c o size => ⟨rfl, rfl⟩, ?_, ?_⟩
  · intro category size hnone
    simp only [getBaselineRuntime, hnone]
    cases size <;> rfl
  · intro category tier hnone
    simp only [getBaselineRuntime, hnone]

/-- Fallback instances discharged through C8: an unknown category string
silently receives the identity baselines, and an unknown tier string raises
the missing-baseline error. -/
theorem C8_fallback_witness :
    getBaselineRuntime "bogus-category"
        (organizationSizeKeyId OrganizationSizeKey.from1000To5000Gb) =
      .ok (categoryBaselines TrafficCategory.identity OrganizationSizeKey.from1000To5000Gb) ∧
    getBaselineRuntime "identity" "bogus-size" =
      .error ("Missing baseline for category " ++ "identity" ++ " and size " ++ "bogus-size") :=
  ⟨C8_baseline_fallback_amended.2.1 "bogus-category" OrganizationSizeKey.from1000To5000Gb rfl,
   C8_baseline_fallback_amended.2.2 "identity" "bogus-size" rfl⟩

/-- Recommendation record carrying a daily volume of half a gigabyte. -/
def halfGigabyteRecommendation : TrafficRecommendation :=
  { organizationSize := metaUnder1000Gb
    category := .identity
    dailyEvents := 524288
    dailyGigabytes := 1 / 2
    averageEventSizeKb := 1 }

/-- C9 counterexample: on a recommendation whose daily volume is half a
gigabyte the primary describeTrafficRecommendation shows 0.5 GB — the unit
stays GB (never KB) and the displayed number drops below one, against the
claimed coarsest-unit rule. -/
theorem C9_volume_display_counterexample :
    halfGigabyteRecommendation.dailyGigabytes * KB_PER_GIGABYTE < KB_PER_GIGABYTE ∧
    specCoarsestUnit (halfGigabyteRecommendation.dailyGigabytes * KB_PER_GIGABYTE) =
      VolumeUnit.kb ∧
    (describeVolumeDisplay halfGigabyteRecommendation).unit = VolumeUnit.gb ∧
    (describeVolumeDisplay halfGigabyteRecommendation).value < 1 := by
  refine ⟨?_, ?_, ?_, ?_⟩ <;>
    norm_num [halfGigabyteRecommendation, KB_PER_GIGABYTE, specCoarsestUnit,
      describeVolumeDisplay]

theorem legacyDisplay_cases (k : ℚ) :
    ((if k / 1048576 < 1 then
        ({ value := k, unit := .kb, maximumFractionDigits := 0 } : VolumeDisplay)
      else if k / 1048576 / 1024 ≥ 1 then
        { value := k / 1048576 / 1024, unit := .tb, maximumFractionDigits := 2 }
      else { value := k / 1048576, unit := .gb, maximumFractionDigits := 2 }).unit =
        specCoarsestUnit k ∧
      (if k / 1048576 < 1 then
        ({ value := k, unit := .kb, maximumFractionDigits := 0 } : VolumeDisplay)
      else if k / 1048576 / 1024 ≥ 1 then
        { value := k / 1048576 / 1024, unit := .tb, maximumFractionDigits := 2 }
      else { value := k / 1048576, unit := .gb, maximumFractionDigits := 2 }).value =
        k / unitFactor (specCoarsestUnit k) ∧
      (if k / 1048576 < 1 then
        ({ value := k, unit := .kb, maximumFractionDigits := 0 } : VolumeDisplay)
      else if k / 1048576 / 1024 ≥ 1 then
        { value := k / 1048576 / 1024, unit := .tb, maximumFractionDigits := 2 }
      else { value := k / 1048576, unit := .gb, maximumFractionDigits := 2 }).maximumFractionDigits
        ≤ 2) := by
  have hKB : KB_PER_GIGABYTE = 1048576 := by norm_num [KB_PER_GIGABYTE]
  have hTB : KB_PER_TERABYTE = 1048576 * 1024 := by norm_num [KB_PER_TERABYTE, KB_PER_GIGABYTE]
  by_cases h1 : k < 1048576
  · have c1 : k / 1048576 < 1 := (div_lt_one (by norm_num)).mpr h1
    have hu : specCoarsestUnit k = .kb := by
      simp only [specCoarsestUnit, hKB]
      rw [if_pos h1]
    rw [if_pos c1, hu]
    refine ⟨rfl, ?_, by norm_num⟩
    simp [unitFactor]
  · have c1 : ¬ k / 1048576 < 1 := fun hlt => h1 ((div_lt_one (by norm_num)).mp hlt)
    rw [if_neg c1]
    by_cases h2 : k < 1048576 * 1024
    · have c2 : ¬ k / 1048576 / 1024 ≥ 1 := by
        rw [div_div, ge_iff_le, one_le_div (by norm_num : (0:ℚ) < 1048576 * 1024)]
        exact fun hle => absurd h2 (not_lt.mpr hle)
      have hu : specCoarsestUnit k = .gb := by
        simp only [specCoarsestUnit, hKB, hTB]
        rw [if_neg h1, if_pos h2]
      rw [if_neg c2, hu]
      refine ⟨rfl, ?_, by norm_num⟩
      simp [unitFactor, hKB]
    · have c2 : k / 1048576 / 1024 ≥ 1 := by
        rw [div_div, ge_iff_le, one_le_div (by norm_num : (0:ℚ) < 1048576 * 1024)]
        exact not_lt.mp h2
      have hu : specCoarsestUnit k = .tb := by
        simp only [specCoarsestUnit, hKB, hTB]
        rw [if_neg h1, if_neg (not_lt.mpr (not_lt.mp h2))]
      rw [if_pos c2, hu]
      refine ⟨rfl, ?_, by norm_num⟩
      simp [unitFactor, hTB, div_div]

/-- C9 as amended: the legacy describeTrafficRecommendation implements the
claimed rule in full — its unit is the coarsest one keeping the shown
number at least one (KB below one GB, GB below one TB, TB from there), its
shown value is the daily kilobyte volume divided by that unit, and at most
2 fraction digits are displayed; the primary variant never uses KB and
keeps at most 1 fraction digit below one TB, but on every recommendation
getTrafficRecommendation actually produces its unit still matches the
coarsest-unit rule, the shown number stays at least one, and at most 2
fraction digits are displayed. -/
theorem C9_volume_display_amended :
    (∀ r : TrafficRecommendationLegacy,
      (describeVolumeDisplayLegacy r).unit =
        specCoarsestUnit ((r.dailyEvents : ℚ) * r.averageEventSizeKb) ∧
      (describeVolumeDisplayLegacy r).value =
        ((r.dailyEvents : ℚ) * r.averageEventSizeKb) /
          unitFactor (specCoarsestUnit ((r.dailyEvents : ℚ) * r.averageEventSizeKb)) ∧
      (describeVolumeDisplayLegacy r).maximumFractionDigits ≤ 2) ∧
    (∀ (endpoint : Endpoint) (size : OrganizationSizeKey),
      (describeVolumeDisplay (getTrafficRecommendation endpoint size)).unit =
        specCoarsestUnit
          ((getTrafficRecommendation endpoint size).dailyGigabytes * KB_PER_GIGABYTE) ∧
      1 ≤ (describeVolumeDisplay (getTrafficRecommendation endpoint size)).value ∧
      (describeVolumeDisplay (getTrafficRecommendation endpoint size)).maximumFractionDigits
        ≤ 2) := by
  constructor
  · intro r
    exact legacyDisplay_cases ((r.dailyEvents : ℚ) * r.averageEventSizeKb)
  · intro endpoint size
    cases size <;>
      refine ⟨?_, ?_, ?_⟩ <;>
        norm_num [describeVolumeDisplay, getTrafficRecommendation, getOrganizationSizeMeta,
          metaUnder1000Gb, metaFrom1000To5000Gb, metaOver5000Gb, specCoarsestUnit,
          KB_PER_GIGABYTE, KB_PER_TERABYTE]

theorem overrideAvg_le_one (key : String) (x : ℚ) :
    ((combinationOverrides key).bind (fun o => o.averageOptimization)).getD
      (min MAX_REALM_OPTIMIZATION x) ≤ 1 := by
  by_cases h : key = "fortinet-fortigate::sumo-logic-siem"
  · simp only [combinationOverrides, if_pos h, Option.bind_some, Option.getD_some]
    norm_num
  · simp only [combinationOverrides, if_neg h, Option.bind_none, Option.getD_none]
    exact le_trans (min_le_left _ _) (by norm_num [MAX_REALM_OPTIMIZATION])

theorem one_sub_overrideAvg_nonneg (key : String) (x : ℚ) :
    0 ≤ 1 - ((combinationOverrides key).bind (fun o => o.averageOptimization)).getD
      (min MAX_REALM_OPTIMIZATION x) := by
  have h := overrideAvg_le_one key x
  linarith

theorem one_sub_min_cap_nonneg (x : ℚ) : 0 ≤ 1 - min MAX_REALM_OPTIMIZATION x := by
  have h := min_le_left MAX_REALM_OPTIMIZATION x
  have hmax : MAX_REALM_OPTIMIZATION ≤ 1 := by norm_num [MAX_REALM_OPTIMIZATION]
  linarith

/-- C10: with a non-empty selection whose endpoints and destination carry a
non-negative costPerMillionEvents and a realmOptimization in the interval
from zero up to (but excluding) one, and a non-negative dailyTraffic,
calculate succeeds and its result has non-negative providerRatePerMillion,
optimizedRatePerMillion, standardCost and realmCost, with savings never
exceeding standardCost (both the 0.2099 override and the 0.75 cap keep the
applied optimization factor at most one, so the optimized rate cannot go
negative). -/
theorem C10_result_invariants :
    ∀ (s : Endpoint) (rest : List Endpoint) (d : Endpoint) (t : ℚ),
      (∀ e ∈ s :: rest, 0 ≤ e.costPerMillionEvents ∧
        0 ≤ e.realmOptimization ∧ e.realmOptimization < 1) →
      0 ≤ d.costPerMillionEvents → 0 ≤ d.realmOptimization → d.realmOptimization < 1 →
      0 ≤ t →
      ∃ r, calculate { sources := s :: rest, destination := d, dailyTraffic := t } = .ok r ∧
        0 ≤ r.providerRatePerMillion ∧ 0 ≤ r.optimizedRatePerMillion ∧
        0 ≤ r.standardCost ∧ 0 ≤ r.realmCost ∧ r.savings ≤ r.standardCost := by
  intro s rest d t hall hdc hdo hdo1 ht
  have hM : 0 ≤ t * DAYS_PER_MONTH / 1000000 :=
    div_nonneg (mul_nonneg ht (by norm_num [DAYS_PER_MONTH])) (by norm_num)
  cases rest with
  | nil =>
      have hP : 0 ≤ s.costPerMillionEvents + d.costPerMillionEvents :=
        add_nonneg (hall s (List.mem_cons_self s [])).1 hdc
      have hOpt : 0 ≤ (s.costPerMillionEvents + d.costPerMillionEvents) *
          (1 - ((combinationOverrides (s.id ++ "::" ++ d.id)).bind
            (fun o => o.averageOptimization)).getD
              (min MAX_REALM_OPTIMIZATION ((s.realmOptimization + d.realmOptimization) / 2))) :=
        mul_nonneg hP (one_sub_overrideAvg_nonneg _ _)
      have hStd : 0 ≤ t * DAYS_PER_MONTH / 1000000 *
          (s.costPerMillionEvents + d.costPerMillionEvents +
            LEGACY_PIPELINE_OVERHEAD_PER_MILLION) :=
        mul_nonneg hM (add_nonneg hP (by norm_num [LEGACY_PIPELINE_OVERHEAD_PER_MILLION]))
      have hRealm : 0 ≤ t * DAYS_PER_MONTH / 1000000 *
          ((s.costPerMillionEvents + d.costPerMillionEvents) *
            (1 - ((combinationOverrides (s.id ++ "::" ++ d.id)).bind
              (fun o => o.averageOptimization)).getD
                (min MAX_REALM_OPTIMIZATION
                  ((s.realmOptimization + d.realmOptimization) / 2))) +
            REALM_PLATFORM_FEE_PER_MILLION) :=
        mul_nonneg hM (add_nonneg hOpt (by norm_num [REALM_PLATFORM_FEE_PER_MILLION]))
      exact ⟨_, rfl, hP, hOpt, hStd, hRealm, sub_le_self _ hRealm⟩
  | cons b l =>
      have hsum : 0 ≤ ((s :: b :: l).map Endpoint.costPerMillionEvents).sum := by
        refine List.sum_nonneg ?_
        intro y hy
        obtain ⟨e, he, rfl⟩ := List.mem_map.mp hy
        exact (hall e he).1
      have hlen : (0:ℚ) ≤ (((s :: b :: l).length : ℚ)) := by positivity
      have hP : 0 ≤ ((s :: b :: l).map Endpoint.costPerMillionEvents).sum /
          (((s :: b :: l).length : ℚ)) + d.costPerMillionEvents :=
        add_nonneg (div_nonneg hsum hlen) hdc
      have hOpt : 0 ≤ (((s :: b :: l).map Endpoint.costPerMillionEvents).sum /
            (((s :: b :: l).length : ℚ)) + d.costPerMillionEvents) *
          (1 - min MAX_REALM_OPTIMIZATION
            ((((s :: b :: l).map Endpoint.realmOptimization).sum /
                (((s :: b :: l).length : ℚ)) + d.realmOptimization) / 2)) :=
        mul_nonneg hP (one_sub_min_cap_nonneg _)
      have hStd : 0 ≤ t * DAYS_PER_MONTH / 1000000 *
          (((s :: b :: l).map Endpoint.costPerMillionEvents).sum /
              (((s :: b :: l).length : ℚ)) + d.costPerMillionEvents +
            LEGACY_PIPELINE_OVERHEAD_PER_MILLION) :=
        mul_nonneg hM (add_nonneg hP (by norm_num [LEGACY_PIPELINE_OVERHEAD_PER_MILLION]))
      have hRealm : 0 ≤ t * DAYS_PER_MONTH / 1000000 *
          ((((s :: b :: l).map Endpoint.costPerMillionEvents).sum /
                (((s :: b :: l).length : ℚ)) + d.costPerMillionEvents) *
            (1 - min MAX_REALM_OPTIMIZATION
              ((((s :: b :: l).map Endpoint.realmOptimization).sum /
                  (((s :: b :: l).length : ℚ)) + d.realmOptimization) / 2)) +
            REALM_PLATFORM_FEE_PER_MILLION) :=
        mul_nonneg hM (add_nonneg hOpt (by norm_num [REALM_PLATFORM_FEE_PER_MILLION]))
      refine ⟨_, rfl, ?_, ?_, ?_, ?_, ?_⟩ <;>
        simp only [foldl_metrics_eq, zero_add]
      · exact hP
      · exact hOpt
      · exact hStd
      · exact hRealm
      · exact sub_le_self _ hRealm

/-- Invariant instance discharged through C10: the zero-cost stubs with
traffic 100 satisfy every hypothesis and every concluded bound. -/
theorem C10_invariants_witness :
    ∃ r, calculate { sources := [zeroCostSource], destination := zeroCostDestination,
                     dailyTraffic := 100 } = .ok r ∧
      0 ≤ r.providerRatePerMillion ∧ 0 ≤ r.optimizedRatePerMillion ∧
      0 ≤ r.standardCost ∧ 0 ≤ r.realmCost ∧ r.savings ≤ r.standardCost :=
  C10_result_invariants zeroCostSource [] zeroCostDestination 100
    (by
      intro e he
      simp only [List.mem_singleton] at he
      subst he
      norm_num [zeroCostSource])
    (by norm_num [zeroCostDestination])
    (by norm_num [zeroCostDestination])
    (by norm_num [zeroCostDestination])
    (by norm_num)
